import Mathlib

/-!
Shallow embedding of the BAN-SoundBoard-BE backend (FastAPI + asyncpg +
Supabase storage).  Pure Python helpers become Lean functions; each stateful
SQL operation becomes an explicit transformation of a list-of-rows state.
External collaborators (SHA-256, JWT cryptography, object storage, randomness)
enter as explicit parameters of the functions that use them, so every
definition is executable on concrete inputs.

Python string operations are modelled at their ASCII behaviour (`str.lower`,
`str.strip`, regex character classes), which is the alphabet every claim
exercises.
-/

namespace SoundBoard

/-! ## Python string primitives -/

/-- Whitespace set stripped by Python `str.strip()`. -/
def isPySpace (c : Char) : Bool :=
  c == ' ' || c == '\t' || c == '\n' || c == '\r' || c == '\x0b' || c == '\x0c'

/-- Strip characters satisfying `p` from both ends of a character list
(Python `str.strip` / `str.strip("-")`). -/
def stripWith (p : Char → Bool) (l : List Char) : List Char :=
  ((l.dropWhile p).reverse.dropWhile p).reverse

/-- Python `str.strip()`. -/
def pyStrip (s : String) : String :=
  ⟨stripWith isPySpace s.data⟩

/-- Python `s[:n]` slicing on strings. -/
def pyTake (n : Nat) (s : String) : String :=
  ⟨s.data.take n⟩

/-- Python truthiness of an optional string: `None` and `""` are falsy. -/
def truthyStr : Option String → Bool
  | none => false
  | some s => s != ""

/-- Python `a or b` on optional strings: keep `a` when truthy, else `b`. -/
def pyOr (a b : Option String) : Option String :=
  if truthyStr a then a else b

/-- Python `email.split("@")[0]`: the part before the first `@`
(the whole string when no `@` occurs). -/
def emailLocal (email : String) : String :=
  ⟨email.data.takeWhile (fun c => c != '@')⟩

/-- Membership in the regex class `[a-z0-9]`. -/
def isSlugChar (c : Char) : Bool :=
  (decide ('a' ≤ c) && decide (c ≤ 'z')) || (decide ('0' ≤ c) && decide (c ≤ '9'))

/-- Auxiliary for `re.sub(r"[^a-z0-9]+", "-", s)`: each maximal run of characters outside
`[a-z0-9]` collapses to a single hyphen.  The flag records whether the previous
character was part of such a run. -/
def collapseAux : Bool → List Char → List Char
  | _, [] => []
  | prevBad, c :: rest =>
    if isSlugChar c then c :: collapseAux false rest
    else if prevBad then collapseAux true rest
    else '-' :: collapseAux true rest

/-- Run-collapsing substitution `re.sub(r"[^a-z0-9]+", "-", s)`. -/
def collapseRuns (l : List Char) : List Char :=
  collapseAux false l

/-- Embeds `main.slugify`: strip, lowercase, collapse non-alphanumeric runs to
hyphens, strip hyphens. -/
def slugify (tag : String) : String :=
  ⟨stripWith (fun c => c == '-') (collapseRuns ((stripWith isPySpace tag.data).map Char.toLower))⟩

/-- Embeds `auth._slugify_handle`: same normalisation as `slugify`, falling
back to `"creator"` when the result is empty. -/
def slugifyHandle (value : String) : String :=
  let r : String :=
    ⟨stripWith (fun c => c == '-') (collapseRuns ((stripWith isPySpace value.data).map Char.toLower))⟩
  if r = "" then "creator" else r

/-! ## Request-level normalisation helpers (`main.py`) -/

/-- Embeds `main.normalize_privacy`. -/
def normalizePrivacy (value : Option String) : String :=
  match value with
  | some v =>
    if v = "public" ∨ v = "private" ∨ v = "link_only" then v
    else if v = "link-only" then "link_only"
    else "link_only"
  | none => "link_only"

/-- Embeds `main.normalize_tags`: split on commas, strip, drop empties. -/
def normalizeTags (raw : Option String) : List String :=
  match raw with
  | none => []
  | some r =>
    if r = "" then []
    else ((r.splitOn ",").map pyStrip).filter (fun t => t != "")

/-- Membership in the regex class `[a-zA-Z0-9._-]` of `storage.safe_name`. -/
def isSafeChar (c : Char) : Bool :=
  (decide ('a' ≤ c) && decide (c ≤ 'z')) ||
  (decide ('A' ≤ c) && decide (c ≤ 'Z')) ||
  (decide ('0' ≤ c) && decide (c ≤ '9')) ||
  c == '.' || c == '_' || c == '-'

/-- Embeds `storage.safe_name`: strip, replace each disallowed character by a
hyphen, fall back to `"sound"` when empty. -/
def safeName (value : String) : String :=
  let cleaned := (stripWith isPySpace value.data).map (fun c => if isSafeChar c then c else '-')
  if cleaned = [] then "sound" else ⟨cleaned⟩

/-! ## HTTP errors (`fastapi.HTTPException`) -/

/-- Status code and detail string of a raised `HTTPException`. -/
structure HTTPError where
  status : Nat
  detail : String
deriving DecidableEq

/-! ## Identity resolver (`auth.py`) -/

/-- Outcome of the JWT library calls inside `auth.decode_token`: the
cryptographic verification itself is an external collaborator, so handlers
take the decode outcome as a parameter.  `expired` models
`jwt.ExpiredSignatureError`, `invalid` every other `jwt.PyJWTError`. -/
inductive AuthFail where
  | expired
  | invalid
deriving DecidableEq

/-- The `HTTPException` that `auth.decode_token` raises for each failure. -/
def authFailError : AuthFail → HTTPError
  | .expired => ⟨401, "Token expired."⟩
  | .invalid => ⟨401, "Invalid token."⟩

/-- The `user_metadata` claim object, each key optional. -/
structure UserMetadata where
  full_name : Option String := none
  name : Option String := none
  preferred_username : Option String := none
  user_name : Option String := none
  email : Option String := none
  avatar_url : Option String := none
  picture : Option String := none
deriving DecidableEq

/-- The decoded JWT payload as `auth.py` reads it. -/
structure TokenPayload where
  sub : Option String := none
  role : Option String := none
  email : Option String := none
  user_metadata : UserMetadata := {}
deriving DecidableEq

/-- Embeds `auth.AuthUser`. -/
structure AuthUser where
  id : String
  role : String
deriving DecidableEq

/-- Display name derived in `auth.ensure_profile`: first truthy of
`full_name` / `name` / `preferred_username` / `user_name`, falling back to the
email local part when falsy and an email is available. -/
def profileDisplayName (payload : TokenPayload) : Option String :=
  let m := payload.user_metadata
  let email := pyOr payload.email m.email
  let dn := pyOr (pyOr (pyOr m.full_name m.name) m.preferred_username) m.user_name
  if !truthyStr dn && truthyStr email then some (emailLocal (email.getD ""))
  else dn

/-- Avatar URL derived in `auth.ensure_profile`. -/
def profileAvatarUrl (payload : TokenPayload) : Option String :=
  pyOr payload.user_metadata.avatar_url payload.user_metadata.picture

/-- Email value used by `auth.ensure_profile` (`payload.get("email") or
metadata.get("email")`). -/
def profileEmail (payload : TokenPayload) : Option String :=
  pyOr payload.email payload.user_metadata.email

/-- Base-handle source string in `auth.ensure_profile`:
`display_name or (email.split("@")[0] if email else "creator")`. -/
def genBase (payload : TokenPayload) : String :=
  let dn := profileDisplayName payload
  let email := profileEmail payload
  if truthyStr dn then dn.getD ""
  else if truthyStr email then emailLocal (email.getD "")
  else "creator"

/-- Handle generated in `auth.ensure_profile`:
`f"{base_handle}-{user_id[:6]}"` with the base handle slugified from the
display name, else the email local part, else `"creator"`. -/
def genHandle (user_id : String) (payload : TokenPayload) : String :=
  slugifyHandle (genBase payload) ++ "-" ++ pyTake 6 user_id

/-- A row of the `profiles` table; the display columns are nullable. -/
structure Profile where
  id : String
  handle : Option String
  display_name : Option String
  avatar_url : Option String
deriving DecidableEq

/-- The `ON CONFLICT (id) DO UPDATE` arm of `auth.ensure_profile`:
`handle = COALESCE(profiles.handle, EXCLUDED.handle)`,
`display_name = COALESCE(NULLIF(profiles.display_name, ''), EXCLUDED.display_name)`,
`avatar_url = COALESCE(NULLIF(profiles.avatar_url, ''), EXCLUDED.avatar_url)`. -/
def mergeProfile (old : Profile) (handle : String) (display_name avatar_url : Option String) :
    Profile :=
  { old with
    handle := match old.handle with
      | some h => some h
      | none => some handle
    display_name := match old.display_name with
      | some d => if d = "" then display_name else some d
      | none => display_name
    avatar_url := match old.avatar_url with
      | some a => if a = "" then avatar_url else some a
      | none => avatar_url }

/-- Embeds the upsert of `auth.ensure_profile` on the `profiles` table. -/
def ensureProfile (user_id : String) (payload : TokenPayload) (db : List Profile) :
    List Profile :=
  let handle := genHandle user_id payload
  let dn := profileDisplayName payload
  let av := profileAvatarUrl payload
  if db.any (fun p => p.id == user_id) then
    db.map (fun p => if p.id = user_id then mergeProfile p handle dn av else p)
  else
    db ++ [⟨user_id, some handle, dn, av⟩]

/-- Embeds `auth.get_optional_user`.  `dec` is the outcome of
`decode_token`'s JWT verification for each credential string; a raised
`HTTPException` propagates as `.error`.  (The `ensure_profile` side effect is
modelled separately by `ensureProfile`.) -/
def getOptionalUser (dec : String → Except AuthFail TokenPayload)
    (credentials : Option String) : Except HTTPError (Option AuthUser) :=
  match credentials with
  | none => .ok none
  | some c =>
    match dec c with
    | .error f => .error (authFailError f)
    | .ok payload =>
      if truthyStr payload.sub then
        .ok (some ⟨payload.sub.getD "", payload.role.getD "authenticated"⟩)
      else
        .ok none

/-- Embeds `auth.get_current_user`. -/
def getCurrentUser (dec : String → Except AuthFail TokenPayload)
    (credentials : Option String) : Except HTTPError AuthUser :=
  match credentials with
  | none => .error ⟨401, "Missing bearer token."⟩
  | some c =>
    match dec c with
    | .error f => .error (authFailError f)
    | .ok payload =>
      if truthyStr payload.sub then
        .ok ⟨payload.sub.getD "", payload.role.getD "authenticated"⟩
      else
        .error ⟨401, "Invalid token."⟩

/-! ## Session-context binder (`db.py`)

PostgreSQL connection-state semantics: a connection carries session-level
settings; a transaction additionally carries transaction-local overrides that
revert when the transaction ends.  `asyncpg`'s `Connection.execute` outside an
explicit transaction runs the statement in its own implicit single-statement
transaction, so transaction-local effects never outlive the statement. -/

/-- Session variables of a connection (`set_config` keys to values). -/
def setVar (k v : String) (vars : List (String × String)) : List (String × String) :=
  (k, v) :: vars.filter (fun p => p.1 != k)

/-- Connection-global (session-level) state of a pooled connection: what a
later caller acquiring the same connection observes. -/
structure PgConn where
  sessionVars : List (String × String)
  rowSecurity : Bool
deriving DecidableEq

/-- The statements `db.get_db` issues, plus their session-level counterparts
for contrast.  `setLocalRowSecurity` is `set local row_security = ...`;
`setConfigTxnLocal` is `select set_config(key, value, true)` (the `true`
makes the setting transaction-local); the `Session` forms are what
`set row_security` / `set_config(key, value, false)` would do. -/
inductive SessionStmt where
  | setLocalRowSecurity (b : Bool)
  | setConfigTxnLocal (key value : String)
  | setSessionRowSecurity (b : Bool)
  | setConfigSession (key value : String)
deriving DecidableEq

/-- In-transaction view: base connection plus transaction-local overrides. -/
structure TxnCtx where
  base : PgConn
  txnVars : List (String × String)
  txnRowSecurity : Option Bool
deriving DecidableEq

/-- Effect of one statement inside a transaction: transaction-local forms
write the overlay, session-level forms write through to the connection. -/
def applyInTxn : SessionStmt → TxnCtx → TxnCtx
  | .setLocalRowSecurity b, t => { t with txnRowSecurity := some b }
  | .setConfigTxnLocal k v, t => { t with txnVars := setVar k v t.txnVars }
  | .setSessionRowSecurity b, t => { t with base := { t.base with rowSecurity := b } }
  | .setConfigSession k v, t => { t with base := { t.base with sessionVars := setVar k v t.base.sessionVars } }

/-- Transaction end: transaction-local settings revert; only session-level
writes persist on the connection. -/
def commitTxn (t : TxnCtx) : PgConn :=
  t.base

/-- One `asyncpg` `execute` call outside an explicit transaction: the
statement runs in an implicit single-statement transaction that commits
immediately. -/
def execSingle (c : PgConn) (s : SessionStmt) : PgConn :=
  commitTxn (applyInTxn s ⟨c, [], none⟩)

/-- The statement sequence `db.get_db` executes after acquiring a pooled
connection (`user_id` falsy means the anonymous branch). -/
def getDbStmts (user_id : Option String) (role : String) : List SessionStmt :=
  [.setLocalRowSecurity true] ++
  (if truthyStr user_id then
    [.setConfigTxnLocal "request.jwt.claim.sub" (user_id.getD ""),
     .setConfigTxnLocal "request.jwt.claim.role" role]
  else
    [.setConfigTxnLocal "request.jwt.claim.sub" "",
     .setConfigTxnLocal "request.jwt.claim.role" "anon"])

/-- Connection-global state after `db.get_db` has bound the caller's context
on a pooled connection (each statement executed by a separate
`conn.execute`). -/
def getDbAcquire (user_id : Option String) (role : String) (c : PgConn) : PgConn :=
  (getDbStmts user_id role).foldl execSingle c

/-- What `current_setting(key, true)` reports to a later caller outside any
transaction on the (reused) connection. -/
def currentSetting (c : PgConn) (key : String) : Option String :=
  c.sessionVars.lookup key

/-! ## Playlists (`main.py`) -/

/-- A row of the `playlists` table. -/
structure PlaylistRow where
  id : String
  owner_id : String
  name : String
  description : Option String
  privacy : String
  share_token_hash : String
deriving DecidableEq

/-- Response body of `POST /playlists` (the fields the claims concern). -/
structure PlaylistCreateResponse where
  id : String
  owner_id : String
  name : String
  description : Option String
  privacy : String
  sound_count : Nat
  share_token : String
deriving DecidableEq

/-- Embeds `main.create_playlist`.  `sha256hex` is the external
`hashlib.sha256(...).hexdigest()`; `share_token` stands for the value drawn by
`secrets.token_urlsafe(16)`; `new_id` for `uuid.uuid4()`.  Persists only the
hash; returns the plaintext once, in the response. -/
def createPlaylist (sha256hex : String → String) (user_id : String)
    (payload_name : String) (payload_description : Option String)
    (payload_privacy : String) (new_id share_token : String)
    (db : List PlaylistRow) : List PlaylistRow × PlaylistCreateResponse :=
  let privacy := normalizePrivacy (some payload_privacy)
  let share_token_hash := sha256hex share_token
  let row : PlaylistRow :=
    ⟨new_id, user_id, payload_name, payload_description, privacy, share_token_hash⟩
  (db ++ [row],
   ⟨new_id, user_id, payload_name, payload_description, privacy, 0, share_token⟩)

/-- Embeds `main.rotate_share_token`: `UPDATE playlists SET share_token_hash
= $1 WHERE id = $2 RETURNING id`, 404 when no row matched, else the new
plaintext token is returned once. -/
def rotateShareToken (sha256hex : String → String) (playlist_id share_token : String)
    (db : List PlaylistRow) : List PlaylistRow × Except HTTPError String :=
  let share_token_hash := sha256hex share_token
  let db' := db.map (fun p =>
    if p.id = playlist_id then { p with share_token_hash := share_token_hash } else p)
  (db',
   if db.any (fun p => p.id == playlist_id) then .ok share_token
   else .error ⟨404, "Playlist not found."⟩)

/-- Embeds the playlist lookup of `main.get_playlist_share`:
`WHERE share_token_hash = $1 AND privacy = 'link_only'`, 404 when absent. -/
def getPlaylistShare (sha256hex : String → String) (token : String)
    (db : List PlaylistRow) : Except HTTPError PlaylistRow :=
  match db.find? (fun p => p.share_token_hash == sha256hex token && p.privacy == "link_only") with
  | some p => .ok p
  | none => .error ⟨404, "Share link not found."⟩

/-! ## Playlist membership reordering (`main.reorder_playlist_sounds`) -/

/-- A row of the `playlist_sounds` join table. -/
structure MembershipRow where
  playlist_id : String
  sound_id : String
  position : Nat
deriving DecidableEq

/-- Effect of `UPDATE playlist_sounds SET position = $1 WHERE playlist_id =
$2 AND sound_id = $3` on one row. -/
def rowUpd (playlist_id : String) (index : Nat) (sound_id : String) (r : MembershipRow) :
    MembershipRow :=
  if r.playlist_id = playlist_id ∧ r.sound_id = sound_id then { r with position := index } else r

/-- One `UPDATE playlist_sounds SET position = $1 WHERE playlist_id = $2 AND
sound_id = $3`. -/
def updatePosition (playlist_id : String) (index : Nat) (sound_id : String)
    (db : List MembershipRow) : List MembershipRow :=
  db.map (rowUpd playlist_id index sound_id)

/-- The loop of `main.reorder_playlist_sounds` from index `i`
(`enumerate(payload.sound_ids, start=1)` issues one update per listed id). -/
def reorderFrom (playlist_id : String) (i : Nat) :
    List String → List MembershipRow → List MembershipRow
  | [], db => db
  | sid :: rest, db => reorderFrom playlist_id (i + 1) rest (updatePosition playlist_id i sid db)

/-- Embeds `main.reorder_playlist_sounds` on the `playlist_sounds` table. -/
def reorderPlaylistSounds (playlist_id : String) (sound_ids : List String)
    (db : List MembershipRow) : List MembershipRow :=
  reorderFrom playlist_id 1 sound_ids db

/-- Per-row effect of the whole reorder loop from index `i`. -/
def rowReorderFrom (playlist_id : String) (i : Nat) :
    List String → MembershipRow → MembershipRow
  | [], r => r
  | sid :: rest, r => rowReorderFrom playlist_id (i + 1) rest (rowUpd playlist_id i sid r)

/-! ## Sounds, tags and associations (`main.py`) -/

/-- A row of the `sounds` table. -/
structure SoundRow where
  id : String
  owner_id : String
  name : String
  description : Option String
  storage_path : String
  size_bytes : Nat
  format : Option String
  privacy : String
deriving DecidableEq

/-- A row of the `tags` table (`id` modelled by an allocation counter). -/
structure TagRow where
  id : Nat
  slug : String
  display : String
deriving DecidableEq

/-- A row of the `sound_tags` join table. -/
structure SoundTagRow where
  sound_id : String
  tag_id : Nat
deriving DecidableEq

/-- The relational state the sound handlers touch. -/
structure DBState where
  sounds : List SoundRow
  tags : List TagRow
  sound_tags : List SoundTagRow
  nextTagId : Nat
deriving DecidableEq

/-- One iteration of `main.ensure_tags`: skip empty slugs, else
`INSERT INTO tags ... ON CONFLICT (slug) DO UPDATE SET display = EXCLUDED.display
RETURNING id`. -/
def ensureTagStep (st : DBState) (tag : String) : DBState × Option Nat :=
  let slug := slugify tag
  if slug = "" then (st, none)
  else
    match st.tags.find? (fun r => r.slug == slug) with
    | some row =>
      ({ st with tags := st.tags.map (fun r => if r.slug = slug then { r with display := tag } else r) },
       some row.id)
    | none =>
      ({ st with tags := st.tags ++ [⟨st.nextTagId, slug, tag⟩], nextTagId := st.nextTagId + 1 },
       some st.nextTagId)

/-- Embeds `main.ensure_tags`: returns the updated state and the collected
`tag_ids` (skipped tags contribute nothing). -/
def ensureTags (st : DBState) : List String → DBState × List Nat
  | [] => (st, [])
  | tag :: rest =>
    match ensureTagStep st tag with
    | (st1, none) => ensureTags st1 rest
    | (st1, some i) =>
      match ensureTags st1 rest with
      | (st2, ids) => (st2, i :: ids)

/-- One `INSERT INTO sound_tags ... ON CONFLICT DO NOTHING`. -/
def insertSoundTag (st : DBState) (sound_id : String) (tag_id : Nat) : DBState :=
  if st.sound_tags.any (fun a => a.sound_id == sound_id && a.tag_id == tag_id) then st
  else { st with sound_tags := st.sound_tags ++ [⟨sound_id, tag_id⟩] }

/-- Embeds `main.attach_tags`: ensure the tags, then associate each returned
id with the sound; returns the raw tag list (or `[]` when no ids). -/
def attachTags (st : DBState) (sound_id : String) (tags : List String) :
    DBState × List String :=
  match ensureTags st tags with
  | (st1, ids) =>
    if ids = [] then (st1, [])
    else (ids.foldl (fun s i => insertSoundTag s sound_id i) st1, tags)

/-- Outcome of the object-storage upload call in `main.create_sound`.
`StorageExc` models a raised `storage3.utils.StorageException`: `argsDict =
some m` means `exc.args[0]` is a dict whose `"message"` value is `m` (`none`
inside when the value is missing or falsy); `argsDict = none` means `args` is
empty or `args[0]` is not a dict. -/
structure StorageExc where
  argsDict : Option (Option String)
deriving DecidableEq

/-- The detail string `main.create_sound` derives from a storage exception
(`exc.args[0].get("message") or "Storage upload failed."`; a present but
empty message also falls back). -/
def storageDetail (e : StorageExc) : String :=
  match e.argsDict with
  | some (some m) => if m = "" then "Storage upload failed." else m
  | _ => "Storage upload failed."

/-- Response body of `POST /sounds` (the fields the claims concern). -/
structure SoundCreateResponse where
  id : String
  name : String
  url : String
  tags : List String
  privacy : String
  owner_id : String
deriving DecidableEq

/-- Embeds `main.create_sound`.  `uploadResult` is the outcome of the
`upload_bytes` call to object storage, `signed_url` of `create_signed_url`;
`sound_id` stands for the generated `uuid.uuid4()`; `data_len` is
`len(data)`.  The name check runs first, then the upload, and only on upload
success the database insert and tag attachment. -/
def createSound (uploadResult : Except StorageExc Unit) (signed_url : String)
    (file_filename : Option String) (file_content_type : Option String)
    (data_len : Nat) (name description tags privacy : String)
    (user_id sound_id : String) (st : DBState) :
    DBState × Except HTTPError SoundCreateResponse :=
  let display_name := if pyStrip name != "" then some (pyStrip name) else file_filename
  if !truthyStr display_name then
    (st, .error ⟨400, "Sound name required."⟩)
  else
    let dn := display_name.getD ""
    let filename := safeName ((pyOr file_filename (some dn)).getD "")
    let storage_path := user_id ++ "/" ++ sound_id ++ "/" ++ filename
    match uploadResult with
    | .error exc => (st, .error ⟨502, storageDetail exc⟩)
    | .ok _ =>
      let privacy_value := normalizePrivacy (some privacy)
      let tag_list := normalizeTags (some tags)
      let row : SoundRow :=
        ⟨sound_id, user_id, dn, (if description = "" then none else some description),
         storage_path, data_len, file_content_type, privacy_value⟩
      let st1 := { st with sounds := st.sounds ++ [row] }
      let st2 := (attachTags st1 sound_id tag_list).1
      (st2, .ok ⟨sound_id, dn, signed_url, tag_list, privacy_value, user_id⟩)

/-! ## Theorems -/

/-- Contrast lemma showing the connection-state model is not degenerate: a
session-level `set_config(key, value, false)` would persist on the pooled
connection, unlike the transaction-local form `db.get_db` actually uses. -/
theorem setConfigSession_persists (c : PgConn) (k v : String) :
    execSingle c (.setConfigSession k v) =
      { c with sessionVars := setVar k v c.sessionVars } := rfl

/-- C5: `normalize_privacy` maps `"public"`, `"private"`, `"link_only"` to
themselves and `"link-only"` as well as every other string to
`"link_only"`. -/
theorem C5_normalize_privacy :
    normalizePrivacy (some "public") = "public" ∧
    normalizePrivacy (some "private") = "private" ∧
    normalizePrivacy (some "link_only") = "link_only" ∧
    normalizePrivacy (some "link-only") = "link_only" ∧
    ∀ s : String, s ≠ "public" → s ≠ "private" → s ≠ "link_only" →
      normalizePrivacy (some s) = "link_only" := by
  refine ⟨rfl, rfl, rfl, rfl, ?_⟩
  intro s h1 h2 h3
  simp only [normalizePrivacy, h1, h2, h3, false_or, if_false, ite_self]

/-- Witness for C5 at concrete inputs. -/
theorem C5_normalize_privacy_witness :
    normalizePrivacy (some "anything else") = "link_only" ∧
    normalizePrivacy (some "public") = "public" :=
  ⟨C5_normalize_privacy.2.2.2.2 "anything else" (by decide) (by decide) (by decide),
   C5_normalize_privacy.1⟩

/-- C2: the statements `db.get_db` issues bind row security and the caller's
subject-id/role variables transaction-locally (`set local`,
`set_config(..., true)`), and each runs in its own implicit single-statement
transaction, so the connection-global state is unchanged: a later caller
acquiring the reused pooled connection observes exactly the session state
from before, never the earlier caller's identity context. -/
theorem C2_get_db_no_leak (user_id : Option String) (role : String) (c : PgConn) :
    getDbAcquire user_id role c = c ∧
    currentSetting (getDbAcquire user_id role c) "request.jwt.claim.sub" =
      currentSetting c "request.jwt.claim.sub" ∧
    currentSetting (getDbAcquire user_id role c) "request.jwt.claim.role" =
      currentSetting c "request.jwt.claim.role" := by
  have h : getDbAcquire user_id role c = c := by
    cases hu : truthyStr user_id <;>
      simp [getDbAcquire, getDbStmts, hu, execSingle, commitTxn, applyInTxn]
  exact ⟨h, by rw [h], by rw [h]⟩

/-- C3 counterexample: a presented bearer credential that fails verification
(here: expired) is not treated as anonymous by `get_optional_user` — the 401
from `decode_token` propagates instead of yielding "no authenticated
identity". -/
theorem C3_counterexample :
    getOptionalUser (fun _ => .error .expired) (some "token") =
      .error ⟨401, "Token expired."⟩ ∧
    getOptionalUser (fun _ => .error .expired) (some "token") ≠
      .ok none := by
  refine ⟨rfl, ?_⟩
  intro h
  simp [getOptionalUser] at h

/-- C3 amended: only an absent credential, or a verified token whose subject
claim is missing or empty, is treated as anonymous by `get_optional_user`; a
presented credential that fails verification is rejected with the 401 raised
by `decode_token` even on optional-auth routes, and `get_current_user`
additionally rejects missing credentials. -/
theorem C3_amended (dec : String → Except AuthFail TokenPayload)
    (c1 c2 : String) (f : AuthFail) (p : TokenPayload)
    (hf : dec c1 = Except.error f) (hp : dec c2 = Except.ok p)
    (hsub : truthyStr p.sub = false) :
    getOptionalUser dec none = .ok none ∧
    getOptionalUser dec (some c1) = .error (authFailError f) ∧
    getOptionalUser dec (some c2) = .ok none ∧
    getCurrentUser dec none = .error ⟨401, "Missing bearer token."⟩ ∧
    getCurrentUser dec (some c1) = .error (authFailError f) := by
  refine ⟨rfl, ?_, ?_, rfl, ?_⟩
  · simp [getOptionalUser, hf]
  · simp [getOptionalUser, hp, hsub]
  · simp [getCurrentUser, hf]

/-- Witness for C3 at concrete inputs. -/
theorem C3_amended_witness :
    getOptionalUser (fun s => if s = "bad" then .error .expired else .ok { sub := some "" })
      none = .ok none ∧
    getOptionalUser (fun s => if s = "bad" then .error .expired else .ok { sub := some "" })
      (some "bad") = .error (authFailError .expired) ∧
    getOptionalUser (fun s => if s = "bad" then .error .expired else .ok { sub := some "" })
      (some "ok") = .ok none ∧
    getCurrentUser (fun s => if s = "bad" then .error .expired else .ok { sub := some "" })
      none = .error ⟨401, "Missing bearer token."⟩ ∧
    getCurrentUser (fun s => if s = "bad" then .error .expired else .ok { sub := some "" })
      (some "bad") = .error (authFailError .expired) :=
  C3_amended (fun s => if s = "bad" then .error .expired else .ok { sub := some "" })
    "bad" "ok" .expired { sub := some "" } (by simp) (by simp) (by decide)

/-- C1 counterexample: the persisted `share_token_hash` is an *unsalted*
digest of the share token.  With the digest function fixed, two creations
that differ in owner, name, privacy, playlist id and prior state but use the
same plaintext token persist the *same* hash value, i.e. the stored value is
a function of the token alone — there is no per-row salt, contradicting
"only a salted hash of the share token is persisted". -/
theorem C1_counterexample :
    ((createPlaylist (fun s => "sha256:" ++ s) "alice" "mine" none "public" "id1" "tok"
        []).1.map PlaylistRow.share_token_hash) = ["sha256:tok"] ∧
    ((createPlaylist (fun s => "sha256:" ++ s) "bob" "other" (some "d") "private" "id2" "tok"
        [⟨"id0", "carol", "old", none, "public", "h0"⟩]).1.map
          PlaylistRow.share_token_hash) = ["h0", "sha256:tok"] ∧
    ("alice" : String) ≠ "bob" := by
  refine ⟨rfl, rfl, by decide⟩

/-- C1 amended: playlist creation and share-token rotation persist only the
(unsalted) SHA-256 digest of the share token — the persisted state depends on
the plaintext only through its digest — and the plaintext is returned exactly
once, in the response of that same call. -/
theorem C1_hash_only (sha256hex : String → String) (uid nm : String)
    (ds : Option String) (pv nid : String) (t t2 : String) (db rdb : List PlaylistRow)
    (pid rt rt2 : String)
    (hc : sha256hex t = sha256hex t2) (hr : sha256hex rt = sha256hex rt2) :
    (createPlaylist sha256hex uid nm ds pv nid t db).1 =
      db ++ [⟨nid, uid, nm, ds, normalizePrivacy (some pv), sha256hex t⟩] ∧
    (createPlaylist sha256hex uid nm ds pv nid t db).2.share_token = t ∧
    (createPlaylist sha256hex uid nm ds pv nid t db).1 =
      (createPlaylist sha256hex uid nm ds pv nid t2 db).1 ∧
    (rotateShareToken sha256hex pid rt rdb).1 =
      rdb.map (fun p => if p.id = pid then { p with share_token_hash := sha256hex rt } else p) ∧
    (rotateShareToken sha256hex pid rt rdb).2 =
      (if rdb.any (fun p => p.id == pid) then Except.ok rt
       else Except.error ⟨404, "Playlist not found."⟩) ∧
    (rotateShareToken sha256hex pid rt rdb).1 = (rotateShareToken sha256hex pid rt2 rdb).1 := by
  refine ⟨rfl, rfl, ?_, rfl, rfl, ?_⟩
  · simp [createPlaylist, hc]
  · simp [rotateShareToken, hr]

/-- Witness for C1 at concrete inputs: a constant digest function makes two
distinct plaintexts collide, and the persisted states coincide while the
responses return each plaintext. -/
theorem C1_hash_only_witness :
    (createPlaylist (fun _ => "H") "u" "n" none "link_only" "i" "t1" []).1 =
      [⟨"i", "u", "n", none, normalizePrivacy (some "link_only"), "H"⟩] ∧
    (createPlaylist (fun _ => "H") "u" "n" none "link_only" "i" "t1" []).2.share_token = "t1" ∧
    (createPlaylist (fun _ => "H") "u" "n" none "link_only" "i" "t1" []).1 =
      (createPlaylist (fun _ => "H") "u" "n" none "link_only" "i" "t2" []).1 ∧
    (rotateShareToken (fun _ => "H") "i" "r1"
        [⟨"i", "u", "n", none, "link_only", "old"⟩]).1 =
      [⟨"i", "u", "n", none, "link_only", "old"⟩].map
        (fun p => if p.id = "i" then { p with share_token_hash := "H" } else p) ∧
    (rotateShareToken (fun _ => "H") "i" "r1" [⟨"i", "u", "n", none, "link_only", "old"⟩]).2 =
      (if [(⟨"i", "u", "n", none, "link_only", "old"⟩ : PlaylistRow)].any
          (fun p => p.id == "i") then Except.ok "r1"
       else Except.error ⟨404, "Playlist not found."⟩) ∧
    (rotateShareToken (fun _ => "H") "i" "r1" [⟨"i", "u", "n", none, "link_only", "old"⟩]).1 =
      (rotateShareToken (fun _ => "H") "i" "r2" [⟨"i", "u", "n", none, "link_only", "old"⟩]).1 :=
  C1_hash_only (fun _ => "H") "u" "n" none "link_only" "i" "t1" "t2" []
    [⟨"i", "u", "n", none, "link_only", "old"⟩] "i" "r1" "r2" rfl rfl

/-- C4: share-link retrieval succeeds exactly when some playlist's stored
`share_token_hash` equals the digest of the presented token and that
playlist's privacy is exactly `"link_only"`, and otherwise fails with the 404
"Share link not found."; moreover, after rotating the share token of the only
playlist bearing the old token's digest, a lookup with the old plaintext
fails (given the fresh digest differs, i.e. no digest collision). -/
theorem C4_share_lookup (sha256hex : String → String) (token : String)
    (db : List PlaylistRow) (pid told tnew : String)
    (h1 : ∀ q ∈ db, q.share_token_hash = sha256hex told → q.id = pid)
    (h2 : sha256hex tnew ≠ sha256hex told) :
    ((∃ p ∈ db, p.share_token_hash = sha256hex token ∧ p.privacy = "link_only") ↔
      ∃ r, getPlaylistShare sha256hex token db = .ok r) ∧
    ((¬ ∃ p ∈ db, p.share_token_hash = sha256hex token ∧ p.privacy = "link_only") →
      getPlaylistShare sha256hex token db = .error ⟨404, "Share link not found."⟩) ∧
    getPlaylistShare sha256hex told (rotateShareToken sha256hex pid tnew db).1 =
      .error ⟨404, "Share link not found."⟩ := by
  have hpred : ∀ (p : PlaylistRow),
      (p.share_token_hash == sha256hex token && p.privacy == "link_only") = true ↔
        p.share_token_hash = sha256hex token ∧ p.privacy = "link_only" := by
    intro p
    simp
  refine ⟨?_, ?_, ?_⟩
  · constructor
    · rintro ⟨p, hmem, hhash, hpriv⟩
      rcases hfind : (db.find? fun p =>
          p.share_token_hash == sha256hex token && p.privacy == "link_only") with _ | q
      · rw [List.find?_eq_none] at hfind
        exact absurd ((hpred p).mpr ⟨hhash, hpriv⟩) (hfind p hmem)
      · exact ⟨q, by unfold getPlaylistShare; rw [hfind]⟩
    · rintro ⟨r, hr⟩
      unfold getPlaylistShare at hr
      rcases hfind : (db.find? fun p =>
          p.share_token_hash == sha256hex token && p.privacy == "link_only") with _ | q
      · rw [hfind] at hr
        exact absurd hr (by simp)
      · have hmem := List.mem_of_find?_eq_some hfind
        have hq := List.find?_some hfind
        exact ⟨q, hmem, (hpred q).mp hq⟩
  · intro hno
    unfold getPlaylistShare
    rcases hfind : (db.find? fun p =>
        p.share_token_hash == sha256hex token && p.privacy == "link_only") with _ | q
    · rw [hfind]
    · have hmem := List.mem_of_find?_eq_some hfind
      have hq := List.find?_some hfind
      exact absurd ⟨q, hmem, (hpred q).mp hq⟩ hno
  · unfold getPlaylistShare
    have hnone : ((rotateShareToken sha256hex pid tnew db).1.find? fun p =>
        p.share_token_hash == sha256hex told && p.privacy == "link_only") = none := by
      rw [List.find?_eq_none]
      intro x hx
      have : (rotateShareToken sha256hex pid tnew db).1 =
          db.map (fun p => if p.id = pid then { p with share_token_hash := sha256hex tnew }
            else p) := rfl
      rw [this] at hx
      rcases List.mem_map.mp hx with ⟨q, hq, hqx⟩
      by_cases hqid : q.id = pid
      · subst hqx
        simp only [hqid, if_true, Bool.not_eq_true, Bool.and_eq_true, beq_iff_eq, not_and]
        intro hcontra
        exact absurd hcontra h2
      · subst hqx
        simp only [hqid, if_false, Bool.not_eq_true, Bool.and_eq_true, beq_iff_eq, not_and]
        intro hcontra
        exact absurd (h1 q hq hcontra) hqid
    rw [hnone]

/-- Witness for C4 at concrete inputs: one `link_only` playlist whose stored
hash matches the presented token, looked up before and after a rotation. -/
theorem C4_share_lookup_witness :
    ((∃ p ∈ [(⟨"i", "u", "n", none, "link_only", "h-old"⟩ : PlaylistRow)],
        p.share_token_hash = (fun s => "h-" ++ s) "old" ∧ p.privacy = "link_only") ↔
      ∃ r, getPlaylistShare (fun s => "h-" ++ s) "old"
        [(⟨"i", "u", "n", none, "link_only", "h-old"⟩ : PlaylistRow)] = .ok r) ∧
    ((¬ ∃ p ∈ [(⟨"i", "u", "n", none, "link_only", "h-old"⟩ : PlaylistRow)],
        p.share_token_hash = (fun s => "h-" ++ s) "old" ∧ p.privacy = "link_only") →
      getPlaylistShare (fun s => "h-" ++ s) "old"
        [(⟨"i", "u", "n", none, "link_only", "h-old"⟩ : PlaylistRow)] =
          .error ⟨404, "Share link not found."⟩) ∧
    getPlaylistShare (fun s => "h-" ++ s) "old"
      (rotateShareToken (fun s => "h-" ++ s) "i" "new"
        [(⟨"i", "u", "n", none, "link_only", "h-old"⟩ : PlaylistRow)]).1 =
      .error ⟨404, "Share link not found."⟩ :=
  C4_share_lookup (fun s => "h-" ++ s) "old"
    [(⟨"i", "u", "n", none, "link_only", "h-old"⟩ : PlaylistRow)] "i" "old" "new"
    (by intro q hq hh; simp at hq; simp [hq]) (by simp)

/-- C8: in `create_sound`, the storage upload runs before any database
write: when the upload fails, the relational state is returned unchanged (no
`sounds` row, no tag rows, no associations) and the request fails with a 502
gateway error whose detail is the upstream message when one is available
(and the generic fallback otherwise). -/
theorem C8_upload_failure (exc : StorageExc) (signed_url : String)
    (ffn fct : Option String) (dlen : Nat) (nm ds tg pv uid sid : String)
    (st : DBState) (m : String)
    (hname : truthyStr (if pyStrip nm != "" then some (pyStrip nm) else ffn) = true)
    (hm : m ≠ "") :
    createSound (.error exc) signed_url ffn fct dlen nm ds tg pv uid sid st =
      (st, .error ⟨502, storageDetail exc⟩) ∧
    storageDetail ⟨some (some m)⟩ = m := by
  constructor
  · simp only [createSound, hname, Bool.not_true, Bool.false_eq_true, if_false]
  · simp [storageDetail, hm]

/-- Witness for C8 at concrete inputs: a failing upload with an upstream
message leaves the state unchanged and surfaces the message. -/
theorem C8_upload_failure_witness :
    createSound (.error ⟨some (some "bucket unavailable")⟩) "url" (some "a.mp3") (some "audio/mpeg")
      3 "My Sound" "" "rock" "public" "u1" "s1" ⟨[], [], [], 0⟩ =
      (⟨[], [], [], 0⟩, .error ⟨502, storageDetail ⟨some (some "bucket unavailable")⟩⟩) ∧
    storageDetail ⟨some (some "bucket unavailable")⟩ = "bucket unavailable" :=
  C8_upload_failure ⟨some (some "bucket unavailable")⟩ "url" (some "a.mp3") (some "audio/mpeg")
    3 "My Sound" "" "rock" "public" "u1" "s1" ⟨[], [], [], 0⟩ "bucket unavailable"
    (by decide) (by decide)

/-- C10: a raw tag whose slug normalisation is empty is silently skipped by
`ensure_tags`: dropping it from the list leaves the resulting state and the
collected tag ids unchanged, and likewise the state effect of `attach_tags`;
both functions return normally (no error is reported). -/
theorem C10_empty_slug_skipped (t : String) (ht : slugify t = "")
    (pre post : List String) (st : DBState) (sid : String) :
    ensureTags st (pre ++ t :: post) = ensureTags st (pre ++ post) ∧
    (attachTags st sid (pre ++ t :: post)).1 = (attachTags st sid (pre ++ post)).1 := by
  have hstep : ∀ s : DBState, ensureTagStep s t = (s, none) := by
    intro s
    unfold ensureTagStep
    rw [ht]
    rfl
  have hcons : ∀ (s : DBState) (rest : List String),
      ensureTags s (t :: rest) = ensureTags s rest := by
    intro s rest
    show (match ensureTagStep s t with
      | (st1, none) => ensureTags st1 rest
      | (st1, some i) =>
        match ensureTags st1 rest with
        | (st2, ids) => (st2, i :: ids)) = ensureTags s rest
    rw [hstep s]
  have hmain : ∀ s : DBState, ensureTags s (pre ++ t :: post) = ensureTags s (pre ++ post) := by
    induction pre with
    | nil => exact fun s => hcons s post
    | cons q qs ih =>
      intro s
      show (match ensureTagStep s q with
        | (st1, none) => ensureTags st1 (qs ++ t :: post)
        | (st1, some i) =>
          match ensureTags st1 (qs ++ t :: post) with
          | (st2, ids) => (st2, i :: ids)) =
        (match ensureTagStep s q with
        | (st1, none) => ensureTags st1 (qs ++ post)
        | (st1, some i) =>
          match ensureTags st1 (qs ++ post) with
          | (st2, ids) => (st2, i :: ids))
      rcases ensureTagStep s q with ⟨st1, _ | i⟩
      · exact ih st1
      · show (match ensureTags st1 (qs ++ t :: post) with
          | (st2, ids) => (st2, i :: ids)) =
          (match ensureTags st1 (qs ++ post) with
          | (st2, ids) => (st2, i :: ids))
        rw [ih st1]
  refine ⟨hmain st, ?_⟩
  unfold attachTags
  rw [hmain st]
  rcases hE : ensureTags st (pre ++ post) with ⟨st1, ids⟩
  by_cases hids : ids = [] <;> simp [hids]

/-- Witness for C10 at concrete inputs: the unsluggable tag `"!!!"` between
two real tags contributes no row, no id and no association. -/
theorem C10_empty_slug_skipped_witness :
    ensureTags ⟨[], [], [], 0⟩ (["rock"] ++ "!!!" :: ["jazz"]) =
      ensureTags ⟨[], [], [], 0⟩ (["rock"] ++ ["jazz"]) ∧
    (attachTags ⟨[], [], [], 0⟩ "s1" (["rock"] ++ "!!!" :: ["jazz"])).1 =
      (attachTags ⟨[], [], [], 0⟩ "s1" (["rock"] ++ ["jazz"])).1 :=
  C10_empty_slug_skipped "!!!" (by decide) ["rock"] ["jazz"] ⟨[], [], [], 0⟩ "s1"

/-- C9 counterexample: two distinct identities can receive the *same*
generated handle.  The disambiguating suffix is only the first six characters
of the subject id (`user_id[:6]`), so distinct subject ids sharing a 6-character
prefix (with equal derived base handles) collide, refuting "for every two
distinct identities the generated handles differ". -/
theorem C9_counterexample :
    ("123456a" : String) ≠ "123456b" ∧
    genHandle "123456a" {} = genHandle "123456b" {} := by
  exact ⟨by decide, rfl⟩

set_option maxHeartbeats 1600000 in
/-- C9 amended: the generated handle is non-empty for *every* identity and
payload (unconditionally); two identities whose subject ids are at least six
characters long and differ within their first six characters receive distinct
handles (whatever their claim data); and, universally, identities agreeing on
the 6-character subject-id prefix and on the derived (slugified) base handle
receive the *same* handle — the collision the counterexample instantiates. -/
theorem C9_amended (uid1 uid2 : String) (p1 p2 : TokenPayload) :
    genHandle uid1 p1 ≠ "" ∧
    (6 ≤ uid1.data.length → 6 ≤ uid2.data.length → pyTake 6 uid1 ≠ pyTake 6 uid2 →
      genHandle uid1 p1 ≠ genHandle uid2 p2) ∧
    (pyTake 6 uid1 = pyTake 6 uid2 →
      slugifyHandle (genBase p1) = slugifyHandle (genBase p2) →
      genHandle uid1 p1 = genHandle uid2 p2) := by
  have hdash : ("-" : String).data = ['-'] := rfl
  have hnil : ("" : String).data = ([] : List Char) := rfl
  have htk1 : (pyTake 6 uid1).data = uid1.data.take 6 := rfl
  have htk2 : (pyTake 6 uid2).data = uid2.data.take 6 := rfl
  refine ⟨?_, ?_, ?_⟩
  · intro h
    have hd := congrArg String.data h
    simp only [genHandle, String.data_append, hdash, hnil, htk1] at hd
    exact absurd (List.append_eq_nil.mp (List.append_eq_nil.mp hd).1).2 (by decide)
  · intro h1 h2 hne heq
    have hd := congrArg String.data heq
    simp only [genHandle, String.data_append, hdash, htk1, htk2] at hd
    rw [List.append_assoc, List.append_assoc] at hd
    have hlen : (['-'] ++ uid1.data.take 6).length = (['-'] ++ uid2.data.take 6).length := by
      simp only [List.length_append, List.length_take, List.length_cons, List.length_nil]
      rw [Nat.min_eq_left h1, Nat.min_eq_left h2]
    have hsuf := (List.append_inj' hd hlen).2
    have htake : uid1.data.take 6 = uid2.data.take 6 := (List.cons_eq_cons.mp hsuf).2
    exact hne (String.ext htake)
  · intro htk hbase
    simp only [genHandle]
    rw [htk, hbase]

/-- Witness for C9 at concrete inputs: a handle is non-empty; subject ids
differing in their 6-character prefixes yield distinct handles; subject ids
agreeing on the prefix with equal base handles yield the same handle. -/
theorem C9_amended_witness :
    genHandle "abcdef1" {} ≠ "" ∧
    genHandle "abcdef1" {} ≠ genHandle "zzzzzz2" {} ∧
    genHandle "123456a" {} = genHandle "123456b" {} :=
  ⟨(C9_amended "abcdef1" "zzzzzz2" {} {}).1,
   (C9_amended "abcdef1" "zzzzzz2" {} {}).2.1 (by decide) (by decide) (by decide),
   (C9_amended "123456a" "123456b" {} {}).2.2 (by decide) rfl⟩

/-- A row not matched by an update's WHERE clause is unchanged. -/
theorem rowUpd_ne (p : String) (i : Nat) (s : String) (r : MembershipRow)
    (h : ¬(r.playlist_id = p ∧ r.sound_id = s)) : rowUpd p i s r = r :=
  if_neg h

/-- The reorder loop leaves a row alone when it is in another playlist or
its sound id is not listed. -/
theorem rowReorderFrom_not_mem (p : String) (ids : List String) :
    ∀ (i : Nat) (r : MembershipRow), r.playlist_id ≠ p ∨ r.sound_id ∉ ids →
      rowReorderFrom p i ids r = r := by
  induction ids with
  | nil => intro i r _; rfl
  | cons s rest ih =>
    intro i r h
    show rowReorderFrom p (i + 1) rest (rowUpd p i s r) = r
    have hne : ¬(r.playlist_id = p ∧ r.sound_id = s) := by
      rcases h with h | h
      · exact fun hc => h hc.1
      · exact fun hc => h (by rw [hc.2]; exact List.mem_cons_self s rest)
    rw [rowUpd_ne p i s r hne]
    apply ih
    rcases h with h | h
    · exact Or.inl h
    · exact Or.inr fun hm => h (List.mem_cons_of_mem s hm)

/-- The reorder loop started at index `i` sets a listed member's position to
`i` plus its 0-based index in the (duplicate-free) list. -/
theorem rowReorderFrom_mem (p : String) (ids : List String) (hnd : ids.Nodup) :
    ∀ (i : Nat) (r : MembershipRow), r.playlist_id = p → r.sound_id ∈ ids →
      rowReorderFrom p i ids r = { r with position := i + ids.indexOf r.sound_id } := by
  induction ids with
  | nil => intro i r _ hm; cases hm
  | cons s rest ih =>
    intro i r hp hm
    show rowReorderFrom p (i + 1) rest (rowUpd p i s r) = _
    by_cases hs : r.sound_id = s
    · have hupd : rowUpd p i s r = { r with position := i } := if_pos ⟨hp, hs⟩
      have hnotin : ({ r with position := i } : MembershipRow).sound_id ∉ rest :=
        fun hmem => (List.nodup_cons.mp hnd).1 (hs ▸ hmem)
      rw [hupd, rowReorderFrom_not_mem p rest (i + 1) _ (Or.inr hnotin)]
      show _ = { r with position := i + (s :: rest).indexOf r.sound_id }
      rw [hs, List.indexOf_cons_self, Nat.add_zero]
    · have hupd : rowUpd p i s r = r := rowUpd_ne p i s r fun hc => hs hc.2
      have hm' : r.sound_id ∈ rest := by
        rcases List.mem_cons.mp hm with h | h
        · exact absurd h hs
        · exact h
      rw [hupd, ih (List.nodup_cons.mp hnd).2 (i + 1) r hp hm']
      show _ = { r with position := i + (s :: rest).indexOf r.sound_id }
      rw [List.indexOf_cons_ne rest (Ne.symm hs)]
      congr 1
      omega

/-- The sequential update loop of the reorder handler acts row-wise. -/
theorem reorderFrom_map (p : String) (ids : List String) :
    ∀ (i : Nat) (db : List MembershipRow),
      reorderFrom p i ids db = db.map (rowReorderFrom p i ids) := by
  induction ids with
  | nil =>
    intro i db
    show db = db.map (rowReorderFrom p i [])
    simp [rowReorderFrom]
  | cons s rest ih =>
    intro i db
    show reorderFrom p (i + 1) rest (updatePosition p i s db) =
      db.map (rowReorderFrom p i (s :: rest))
    rw [ih (i + 1) (updatePosition p i s db)]
    unfold updatePosition
    rw [List.map_map]
    rfl

/-- C6: the reorder handler rewrites each listed current member's position to
its 1-based index in the provided (duplicate-free) list; listed ids that are
no member of the playlist match no row (silent no-op), and members omitted
from the list — or rows of other playlists — keep their old position. -/
theorem C6_reorder (p : String) (ids : List String) (db : List MembershipRow)
    (h : ids.Nodup) :
    reorderPlaylistSounds p ids db = db.map (fun r =>
      if r.playlist_id = p ∧ r.sound_id ∈ ids then
        { r with position := ids.indexOf r.sound_id + 1 }
      else r) := by
  unfold reorderPlaylistSounds
  rw [reorderFrom_map]
  apply List.map_congr_left
  intro r _
  by_cases hc : r.playlist_id = p ∧ r.sound_id ∈ ids
  · rw [rowReorderFrom_mem p ids h 1 r hc.1 hc.2, if_pos hc, Nat.add_comm]
  · rw [rowReorderFrom_not_mem p ids 1 r (not_and_or.mp hc |>.imp id id), if_neg hc]

/-- Witness for C6: the exact example of the claim — positions
`{A:1, B:2, C:3}` reordered with `[C, A]` become `C:1, A:2`, `B` untouched at
`3`. -/
theorem C6_reorder_witness :
    reorderPlaylistSounds "p" ["C", "A"]
      [⟨"p", "A", 1⟩, ⟨"p", "B", 2⟩, ⟨"p", "C", 3⟩] =
      [⟨"p", "A", 2⟩, ⟨"p", "B", 2⟩, ⟨"p", "C", 1⟩] := by
  rw [C6_reorder "p" ["C", "A"] _ (by decide)]
  decide

/-- C7: a successful re-authentication of an existing identity takes the
update path of the profile upsert — each row with the caller's id is replaced
by the `ON CONFLICT` merge — and that merge is fill-only per field: whichever
of `display_name`, `handle`, `avatar_url` is non-empty in the stored profile
is left unchanged (independently of the other fields, which may be NULL or
empty), whatever claim data the new payload carries. -/
theorem C7_fill_only (uid : String) (payload : TokenPayload) (db : List Profile)
    (P : Profile) (hmem : P ∈ db) (hid : P.id = uid) :
    ensureProfile uid payload db = db.map (fun Q =>
      if Q.id = uid then
        mergeProfile Q (genHandle uid payload) (profileDisplayName payload)
          (profileAvatarUrl payload)
      else Q) ∧
    (truthyStr P.display_name = true →
      (mergeProfile P (genHandle uid payload) (profileDisplayName payload)
        (profileAvatarUrl payload)).display_name = P.display_name) ∧
    (truthyStr P.handle = true →
      (mergeProfile P (genHandle uid payload) (profileDisplayName payload)
        (profileAvatarUrl payload)).handle = P.handle) ∧
    (truthyStr P.avatar_url = true →
      (mergeProfile P (genHandle uid payload) (profileDisplayName payload)
        (profileAvatarUrl payload)).avatar_url = P.avatar_url) := by
  have hany : db.any (fun q => q.id == uid) = true :=
    List.any_eq_true.mpr ⟨P, hmem, by simp [hid]⟩
  refine ⟨?_, ?_, ?_, ?_⟩
  · simp only [ensureProfile, hany, if_true]
  · intro hdn
    rcases hPd : P.display_name with _ | d
    · rw [hPd] at hdn; simp [truthyStr] at hdn
    · have hd : ¬d = "" := by
        rw [hPd] at hdn; simpa [truthyStr] using hdn
      simp [mergeProfile, hPd, hd]
  · intro hh
    rcases hPh : P.handle with _ | hdl
    · rw [hPh] at hh; simp [truthyStr] at hh
    · simp [mergeProfile, hPh]
  · intro hav
    rcases hPa : P.avatar_url with _ | a
    · rw [hPa] at hav; simp [truthyStr] at hav
    · have ha : ¬a = "" := by
        rw [hPa] at hav; simpa [truthyStr] using hav
      simp [mergeProfile, hPa, ha]

/-- Witness for C7 at concrete inputs: an existing profile with non-empty
display_name and handle but NULL avatar_url, re-authenticated with entirely
different claim data — display_name and handle are preserved field by
field. -/
theorem C7_fill_only_witness :
    (mergeProfile ⟨"u1", some "h", some "Olga", none⟩
      (genHandle "u1"
        { email := some "x@y.z",
          user_metadata := { full_name := some "Different Name", avatar_url := some "other" } })
      (profileDisplayName
        { email := some "x@y.z",
          user_metadata := { full_name := some "Different Name", avatar_url := some "other" } })
      (profileAvatarUrl
        { email := some "x@y.z",
          user_metadata :=
            { full_name := some "Different Name", avatar_url := some "other" } })).display_name =
      some "Olga" ∧
    (mergeProfile ⟨"u1", some "h", some "Olga", none⟩
      (genHandle "u1"
        { email := some "x@y.z",
          user_metadata := { full_name := some "Different Name", avatar_url := some "other" } })
      (profileDisplayName
        { email := some "x@y.z",
          user_metadata := { full_name := some "Different Name", avatar_url := some "other" } })
      (profileAvatarUrl
        { email := some "x@y.z",
          user_metadata :=
            { full_name := some "Different Name", avatar_url := some "other" } })).handle =
      some "h" ∧
    ensureProfile "u1"
        { email := some "x@y.z",
          user_metadata := { full_name := some "Different Name", avatar_url := some "other" } }
        [⟨"u1", some "h", some "Olga", none⟩] =
      [⟨"u1", some "h", some "Olga", none⟩].map (fun Q =>
        if Q.id = "u1" then
          mergeProfile Q
            (genHandle "u1"
              { email := some "x@y.z",
                user_metadata :=
                  { full_name := some "Different Name", avatar_url := some "other" } })
            (profileDisplayName
              { email := some "x@y.z",
                user_metadata :=
                  { full_name := some "Different Name", avatar_url := some "other" } })
            (profileAvatarUrl
              { email := some "x@y.z",
                user_metadata :=
                  { full_name := some "Different Name", avatar_url := some "other" } })
        else Q) := by
  have h := C7_fill_only "u1"
    { email := some "x@y.z",
      user_metadata := { full_name := some "Different Name", avatar_url := some "other" } }
    [⟨"u1", some "h", some "Olga", none⟩] ⟨"u1", some "h", some "Olga", none⟩
    (by decide) rfl
  exact ⟨h.2.1 (by decide), h.2.2.1 (by decide), h.1⟩

end SoundBoard
